import Mathlib

/-!
Shallow embedding of the arithmetic core of `src/core/tools/calculator.py`
(class `CalculatorTool`): expression cleaning, validation, evaluation
(`calculate`), the scientific-function dispatcher (`scientific_function`)
and the unit-conversion engine (`unit_conversion`).

Modelling conventions:
* Python floats are modelled as exact rationals (`ℚ`).  Every concrete
  value exercised by a claim (small integers, 2.5, the temperature
  formulas at 0 and 100, ...) is exactly representable in IEEE doubles,
  so the rational model agrees with the Python runtime at those points.
* The wall-clock read `_get_timestamp` (Python `datetime.now()`) is an
  effect; it is embedded as an explicit `ts : String` argument threaded
  to every operation, standing for the clock reading of that call.
* Python's `str(...)` formatting of a float (used only inside the
  human-readable `expression` / `operation` labels) and the
  transcendental routines of `math` (`sin`, `cos`, ..., `exp`) are
  platform-defined real-number approximations; they are embedded as the
  fields of an explicit environment `MathEnv`, universally quantified in
  every theorem that touches them.  No claim constrains their values.
* `eval(expression, {"__builtins__": {}}, {})` restricted to the
  character set accepted by `_validate_expression` is embedded as a
  tokenizer + recursive-descent parser + evaluator implementing exactly
  Python's expression grammar for numbers, `+ - * / % // **`, unary
  sign and parentheses.  All runtime failure modes that Python maps to
  `None` or to a caught exception (SyntaxError, ZeroDivisionError, and
  the residual errors such as call syntax `2(3)`) are collapsed into
  `Option.none`: in `calculate` every such path produces a failed
  result, which is the only observable the claims depend on.
-/

namespace MCPCalc

/-- The `result` field of the Python dataclass has type `Union[float, str]`:
a number on success, the empty string on failure. -/
inductive ResVal where
  | num (q : ℚ)
  | str (s : String)
deriving DecidableEq, Repr

/-- Numeric content of a `ResVal` (0 for the string case). -/
def ResVal.toQ : ResVal → ℚ
  | .num q => q
  | .str _ => 0

/-- Embedding of the dataclass `CalculationResult`. -/
structure CalculationResult where
  expression : String
  result : ResVal
  operation : String
  timestamp : String
  success : Bool
  error_message : String := ""
deriving DecidableEq, Repr

/-- Platform collaborators of the core that have no exact rational
semantics: the transcendental routines of Python's `math` module and the
`str` formatting of a float used inside display labels.  Claims never
constrain their outputs, so every theorem quantifies over this
environment. -/
structure MathEnv where
  sinF : ℚ → ℚ
  cosF : ℚ → ℚ
  tanF : ℚ → ℚ
  asinF : ℚ → ℚ
  acosF : ℚ → ℚ
  atanF : ℚ → ℚ
  logF : ℚ → ℚ
  log10F : ℚ → ℚ
  expF : ℚ → ℚ
  fmt : ℚ → String

/-- A concrete environment used only to instantiate universally
quantified theorems in witnesses. -/
def defaultEnv : MathEnv :=
  ⟨fun _ => 0, fun _ => 0, fun _ => 0, fun _ => 0, fun _ => 0,
   fun _ => 0, fun _ => 0, fun _ => 0, fun _ => 0, fun _ => ""⟩

/-! ## `_clean_expression` -/

/-- ASCII whitespace matched by the regex `\s` in `re.sub(r'\s+', '', e)`. -/
def isPySpace (c : Char) : Bool :=
  c = ' ' || c = '\t' || c = '\n' || c = '\x0d' || c = '\x0b' || c = '\x0c'

/-- The chained `str.replace` calls `×→*`, `÷→/`, `^→**`.  The three
replacements are disjoint and none produces a character replaced later,
so the sequential composition equals this single pass. -/
def replChar (c : Char) : List Char :=
  if c = '×' then ['*']
  else if c = '÷' then ['/']
  else if c = '^' then ['*', '*']
  else [c]

/-- `CalculatorTool._clean_expression`: strip whitespace, then normalize
`× ÷ ^`. -/
def clean_expression (e : String) : String :=
  ⟨((e.data.filter (fun c => !isPySpace c)).map replChar).flatten⟩

/-! ## `_validate_expression` -/

/-- The character class of the regex `[+\-*/^%]` (consecutive-operator
check). -/
def isOpChar (c : Char) : Bool :=
  c = '+' || c = '-' || c = '*' || c = '/' || c = '^' || c = '%'

/-- `re.search(r'[+\-*/^%]{2,}', s)`: some two adjacent characters are
both operator characters. -/
def hasConsecOps : List Char → Bool
  | [] => false
  | [_] => false
  | a :: b :: t => (isOpChar a && isOpChar b) || hasConsecOps (b :: t)

/-- The whitelist `set('0123456789+-*/.()^%')`. -/
def validChars : List Char :=
  ['0', '1', '2', '3', '4', '5', '6', '7', '8', '9',
   '+', '-', '*', '/', '.', '(', ')', '^', '%']

/-- `CalculatorTool._validate_expression`: balanced parenthesis counts,
whitelisted characters, no two consecutive operator characters. -/
def validate_expression (s : String) : Bool :=
  (s.data.count '(' == s.data.count ')')
    && s.data.all (fun c => validChars.contains c)
    && !hasConsecOps s.data

/-! ## The restricted `eval`: tokenizer -/

/-- Tokens of the expression language reachable through `eval` on the
validated character set. -/
inductive Tok where
  | num (q : ℚ)
  | plus
  | minus
  | star
  | slash
  | dstar
  | dslash
  | percent
  | lparen
  | rparen
deriving DecidableEq, Repr

/-- Characters that may occur inside a numeric literal run. -/
def isNumChar (c : Char) : Bool := c.isDigit || c = '.'

/-- Value of a digit string (most significant first). -/
def natOfDigits (l : List Char) : ℕ :=
  l.foldl (fun n c => 10 * n + (c.toNat - 48)) 0

/-- Python numeric-literal rules for a maximal digit-and-dot run:
at most one dot, at least one digit, and a pure integer literal may not
have a leading zero unless it is all zeros (`010` is a SyntaxError in
Python 3, while `0.5`, `5.`, `.5`, `00` are legal). -/
def litVal (run : List Char) : Option ℚ :=
  if run.count '.' > 1 then none
  else if run.all (fun c => c = '.') then none
  else
    let intPart := run.takeWhile (fun c => c ≠ '.')
    let rest := run.dropWhile (fun c => c ≠ '.')
    if rest = [] then
      if intPart.length > 1 && intPart.headD ' ' = '0'
          && !(intPart.all (fun c => c = '0')) then none
      else some (natOfDigits intPart : ℚ)
    else
      let fracPart := rest.drop 1
      some ((natOfDigits intPart : ℚ)
        + (natOfDigits fracPart : ℚ) / (10 : ℚ) ^ fracPart.length)

/-- Tokenizer for the cleaned expression (fuel-indexed; each step
consumes at least one character).  Any character outside the expression
language yields `none` (in Python a SyntaxError/NameError caught by
`_evaluate_expression`). -/
def tokenize : ℕ → List Char → Option (List Tok)
  | 0, _ => none
  | _, [] => some []
  | f + 1, c :: rest =>
    if c = '(' then (tokenize f rest).map (Tok.lparen :: ·)
    else if c = ')' then (tokenize f rest).map (Tok.rparen :: ·)
    else if c = '+' then (tokenize f rest).map (Tok.plus :: ·)
    else if c = '-' then (tokenize f rest).map (Tok.minus :: ·)
    else if c = '%' then (tokenize f rest).map (Tok.percent :: ·)
    else if c = '*' then
      match rest with
      | '*' :: r2 => (tokenize f r2).map (Tok.dstar :: ·)
      | _ => (tokenize f rest).map (Tok.star :: ·)
    else if c = '/' then
      match rest with
      | '/' :: r2 => (tokenize f r2).map (Tok.dslash :: ·)
      | _ => (tokenize f rest).map (Tok.slash :: ·)
    else if isNumChar c then
      match litVal ((c :: rest).takeWhile isNumChar) with
      | none => none
      | some q =>
          (tokenize f ((c :: rest).dropWhile isNumChar)).map (Tok.num q :: ·)
    else none

/-! ## The restricted `eval`: parser and evaluator -/

/-- Abstract syntax of Python arithmetic expressions over the validated
character set. -/
inductive Ast where
  | num (q : ℚ)
  | neg (a : Ast)
  | pos (a : Ast)
  | add (a b : Ast)
  | sub (a b : Ast)
  | mul (a b : Ast)
  | div (a b : Ast)
  | mod (a b : Ast)
  | fdiv (a b : Ast)
  | pow (a b : Ast)
deriving DecidableEq, Repr

/-- A parser for one grammar level: tokens in, parsed node and leftover
tokens out. -/
def SubParse : Type := List Tok → Option (Ast × List Tok)

/-- `Atom := NUMBER | '(' Expr ')'`; the expression parser for the
parenthesized case is passed in (`pExpr`), breaking the grammar's
cycle. -/
def parseAtomW (pExpr : SubParse) : SubParse := fun toks =>
  match toks with
  | Tok.num q :: rest => some (Ast.num q, rest)
  | Tok.lparen :: rest =>
    match pExpr rest with
    | some (a, Tok.rparen :: rest2) => some (a, rest2)
    | _ => none
  | _ => none

/-- Python `factor := ('+'|'-') factor | power` together with
`power := atom ['**' factor]` (right-associative: the exponent is again
a factor). -/
def parseFactorW (pExpr : SubParse) : ℕ → SubParse
  | 0, _ => none
  | f + 1, Tok.minus :: rest =>
    match parseFactorW pExpr f rest with
    | some (a, rest2) => some (Ast.neg a, rest2)
    | none => none
  | f + 1, Tok.plus :: rest =>
    match parseFactorW pExpr f rest with
    | some (a, rest2) => some (Ast.pos a, rest2)
    | none => none
  | f + 1, toks =>
    match parseAtomW pExpr toks with
    | some (a, Tok.dstar :: rest) =>
      match parseFactorW pExpr f rest with
      | some (b, rest2) => some (Ast.pow a b, rest2)
      | none => none
    | some (a, rest) => some (a, rest)
    | none => none

/-- Left fold over the tail of `Term := Factor (('*'|'/'|'//'|'%') Factor)*`. -/
def parseMulLoopW (pExpr : SubParse) : ℕ → Ast → List Tok → Option (Ast × List Tok)
  | 0, _, _ => none
  | f + 1, acc, Tok.star :: rest =>
    match parseFactorW pExpr f rest with
    | some (b, rest2) => parseMulLoopW pExpr f (Ast.mul acc b) rest2
    | none => none
  | f + 1, acc, Tok.slash :: rest =>
    match parseFactorW pExpr f rest with
    | some (b, rest2) => parseMulLoopW pExpr f (Ast.div acc b) rest2
    | none => none
  | f + 1, acc, Tok.dslash :: rest =>
    match parseFactorW pExpr f rest with
    | some (b, rest2) => parseMulLoopW pExpr f (Ast.fdiv acc b) rest2
    | none => none
  | f + 1, acc, Tok.percent :: rest =>
    match parseFactorW pExpr f rest with
    | some (b, rest2) => parseMulLoopW pExpr f (Ast.mod acc b) rest2
    | none => none
  | _ + 1, acc, toks => some (acc, toks)

/-- `Term := Factor (...)*`, left-associative. -/
def parseMulW (pExpr : SubParse) (f : ℕ) : SubParse := fun toks =>
  match parseFactorW pExpr f toks with
  | some (a, rest) => parseMulLoopW pExpr f a rest
  | none => none

/-- Left fold over the tail of `Expr := Term (('+'|'-') Term)*`. -/
def parseAddLoopW (pExpr : SubParse) : ℕ → Ast → List Tok → Option (Ast × List Tok)
  | 0, _, _ => none
  | f + 1, acc, Tok.plus :: rest =>
    match parseMulW pExpr f rest with
    | some (b, rest2) => parseAddLoopW pExpr f (Ast.add acc b) rest2
    | none => none
  | f + 1, acc, Tok.minus :: rest =>
    match parseMulW pExpr f rest with
    | some (b, rest2) => parseAddLoopW pExpr f (Ast.sub acc b) rest2
    | none => none
  | _ + 1, acc, toks => some (acc, toks)

/-- `Expr := Term (('+'|'-') Term)*`, left-associative. -/
def parseAddW (pExpr : SubParse) (f : ℕ) : SubParse := fun toks =>
  match parseMulW pExpr f toks with
  | some (a, rest) => parseAddLoopW pExpr f a rest
  | none => none

/-- The full expression parser: ties the grammar's knot by feeding
itself (at smaller fuel) as the parenthesized-expression parser. -/
def parseExprTop : ℕ → SubParse
  | 0, _ => none
  | f + 1, toks => parseAddW (parseExprTop f) f toks

/-- Truncation toward zero, Python `int(value)` on a float. -/
def ratTrunc (q : ℚ) : ℤ :=
  if 0 ≤ q then ⌊q⌋ else ⌈q⌉

/-- Evaluator over the AST.  Division, modulo and floor division by
zero give `none` (Python raises ZeroDivisionError, caught by
`_evaluate_expression`).  Python `%` and `//` on numbers follow the
floor convention: `x % y = x - y*⌊x/y⌋`, `x // y = ⌊x/y⌋`.
Exponentiation is modelled at integer exponents (exactly the rational
values); `0 ** n` with `n < 0` raises ZeroDivisionError in Python, hence
`none`.  A non-integer exponent is mapped to `none`; this case is
unreachable from `calculate`, whose validator rejects every `**`. -/
def evalAst : Ast → Option ℚ
  | .num q => some q
  | .neg a => (evalAst a).map (fun x => -x)
  | .pos a => evalAst a
  | .add a b => do pure ((← evalAst a) + (← evalAst b))
  | .sub a b => do pure ((← evalAst a) - (← evalAst b))
  | .mul a b => do pure ((← evalAst a) * (← evalAst b))
  | .div a b => do
      let x ← evalAst a
      let y ← evalAst b
      if y = 0 then none else pure (x / y)
  | .mod a b => do
      let x ← evalAst a
      let y ← evalAst b
      if y = 0 then none else pure (x - y * (⌊x / y⌋ : ℤ))
  | .fdiv a b => do
      let x ← evalAst a
      let y ← evalAst b
      if y = 0 then none else pure ((⌊x / y⌋ : ℤ) : ℚ)
  | .pow a b => do
      let x ← evalAst a
      let y ← evalAst b
      if y.den = 1 then
        if x = 0 ∧ y.num < 0 then none else pure (x ^ y.num)
      else none

/-- `CalculatorTool._evaluate_expression`: replace `^` with `**` once
more, then evaluate with Python semantics; every caught exception
(SyntaxError, NameError, ZeroDivisionError) and every non-numeric
outcome is `none`. -/
def evaluate_expression (s : String) : Option ℚ :=
  let chars := (s.data.map (fun c => if c = '^' then ['*', '*'] else [c])).flatten
  match tokenize (chars.length + 1) chars with
  | none => none
  | some toks =>
    match parseExprTop (5 * (toks.length + 1)) toks with
    | some (a, []) => evalAst a
    | _ => none

/-- `CalculatorTool.calculate`.  `ts` is the clock reading returned by
`_get_timestamp` during the call. -/
def calculate (ts : String) (expression : String) : CalculationResult :=
  let clean_expr := clean_expression expression
  if !validate_expression clean_expr then
    { expression := expression, result := .str "", operation := "validation",
      timestamp := ts, success := false,
      error_message := "Invalid expression format" }
  else
    match evaluate_expression clean_expr with
    | none =>
      { expression := expression, result := .str "", operation := "calculation",
        timestamp := ts, success := false,
        error_message := "Division by zero or invalid operation" }
    | some r =>
      { expression := expression, result := .num r, operation := "calculation",
        timestamp := ts, success := true, error_message := "" }

/-! ## `scientific_function` -/

/-- Round half to even on rationals, Python's `round(x)` builtin:
banker's rounding on a tie, nearest integer (`⌊q + 1/2⌋`) otherwise. -/
def roundHalfEven (q : ℚ) : ℤ :=
  if q - ⌊q⌋ = 1 / 2 then (if ⌊q⌋ % 2 = 0 then ⌊q⌋ else ⌊q⌋ + 1)
  else ⌊q + 1 / 2⌋

/-- `math.sqrt`, modelled exactly at rationals that are squares of
rationals; every call site settled by a claim is such a point (and the
`sqrt` guard makes negative inputs unreachable). -/
def ratSqrt (q : ℚ) : ℚ :=
  let n := Nat.sqrt q.num.toNat
  let d := Nat.sqrt q.den
  if n * n = q.num.toNat ∧ d * d = q.den ∧ 0 ≤ q.num then (n : ℚ) / (d : ℚ)
  else 0

/-- The keys of `self.functions`, in source order. -/
def functionNames : List String :=
  ["sin", "cos", "tan", "asin", "acos", "atan", "sqrt", "log", "log10",
   "exp", "abs", "floor", "ceil", "round", "factorial"]

/-- The values of `self.functions`: dispatch a name from `functionNames`
to its routine.  Exact routines (`sqrt` at exact points, `abs`, `floor`,
`ceil`, `round`, `factorial`) are modelled directly; transcendental ones
come from the environment. -/
def applyNamedFunction (env : MathEnv) (name : String) (v : ℚ) : ℚ :=
  if name = "sin" then env.sinF v
  else if name = "cos" then env.cosF v
  else if name = "tan" then env.tanF v
  else if name = "asin" then env.asinF v
  else if name = "acos" then env.acosF v
  else if name = "atan" then env.atanF v
  else if name = "sqrt" then ratSqrt v
  else if name = "log" then env.logF v
  else if name = "log10" then env.log10F v
  else if name = "exp" then env.expF v
  else if name = "abs" then |v|
  else if name = "floor" then (⌊v⌋ : ℚ)
  else if name = "ceil" then (⌈v⌉ : ℚ)
  else if name = "round" then (roundHalfEven v : ℚ)
  else if name = "factorial" then (Nat.factorial (ratTrunc v).toNat : ℚ)
  else 0

/-- `CalculatorTool.scientific_function`.  `ts` is the clock reading of
the call.  The unknown-name check and the three domain guards
(`sqrt`, `log`, `factorial`) run in source order before the table
lookup fires. -/
def scientific_function (env : MathEnv) (ts : String) (function_name : String)
    (value : ℚ) : CalculationResult :=
  let label := function_name ++ "(" ++ env.fmt value ++ ")"
  if !functionNames.contains function_name then
    { expression := label, result := .str "", operation := "scientific_function",
      timestamp := ts, success := false,
      error_message := "Unknown function: " ++ function_name }
  else if function_name = "sqrt" ∧ value < 0 then
    { expression := label, result := .str "", operation := "scientific_function",
      timestamp := ts, success := false,
      error_message := "Cannot calculate square root of negative number" }
  else if function_name = "log" ∧ value ≤ 0 then
    { expression := label, result := .str "", operation := "scientific_function",
      timestamp := ts, success := false,
      error_message := "Cannot calculate logarithm of non-positive number" }
  else if function_name = "factorial" ∧ (value < 0 ∨ value ≠ (ratTrunc value : ℚ)) then
    { expression := label, result := .str "", operation := "scientific_function",
      timestamp := ts, success := false,
      error_message := "Factorial is only defined for non-negative integers" }
  else
    { expression := label, result := .num (applyNamedFunction env function_name value),
      operation := "scientific_function", timestamp := ts, success := true,
      error_message := "" }

/-! ## `unit_conversion` -/

/-- Python `round(x, 6)`: round half to even at the sixth decimal. -/
def pyRound6 (q : ℚ) : ℚ :=
  (roundHalfEven (q * 1000000) : ℚ) / 1000000

/-- The if/elif chain of `CalculatorTool.unit_conversion`: for a
recognized pair, the raw converted value and the `operation` label;
`none` drops into the unsupported-conversion branch. -/
def conversionRule (env : MathEnv) (value : ℚ) (from_unit to_unit : String) :
    Option (ℚ × String) :=
  let fu := from_unit.toLower
  let tu := to_unit.toLower
  if ["c", "celsius"].contains fu && ["f", "fahrenheit"].contains tu then
    some (value * 9 / 5 + 32,
      "Temperature conversion: " ++ env.fmt value ++ "°C to °F")
  else if ["f", "fahrenheit"].contains fu && ["c", "celsius"].contains tu then
    some ((value - 32) * 5 / 9,
      "Temperature conversion: " ++ env.fmt value ++ "°F to °C")
  else if ["c", "celsius"].contains fu && ["k", "kelvin"].contains tu then
    some (value + 273.15,
      "Temperature conversion: " ++ env.fmt value ++ "°C to K")
  else if ["k", "kelvin"].contains fu && ["c", "celsius"].contains tu then
    some (value - 273.15,
      "Temperature conversion: " ++ env.fmt value ++ "K to °C")
  else if ["m", "meters"].contains fu && ["ft", "feet"].contains tu then
    some (value * 3.28084, "Length conversion: " ++ env.fmt value ++ "m to ft")
  else if ["ft", "feet"].contains fu && ["m", "meters"].contains tu then
    some (value / 3.28084, "Length conversion: " ++ env.fmt value ++ "ft to m")
  else if ["km", "kilometers"].contains fu && ["mi", "miles"].contains tu then
    some (value * 0.621371, "Length conversion: " ++ env.fmt value ++ "km to mi")
  else if ["mi", "miles"].contains fu && ["km", "kilometers"].contains tu then
    some (value / 0.621371, "Length conversion: " ++ env.fmt value ++ "mi to km")
  else if ["kg", "kilograms"].contains fu && ["lbs", "pounds"].contains tu then
    some (value * 2.20462, "Weight conversion: " ++ env.fmt value ++ "kg to lbs")
  else if ["lbs", "pounds"].contains fu && ["kg", "kilograms"].contains tu then
    some (value / 2.20462, "Weight conversion: " ++ env.fmt value ++ "lbs to kg")
  else none

/-- `CalculatorTool.unit_conversion`.  `ts` is the clock reading of the
call; a matched rule returns the converted value rounded to six decimal
places, an unmatched pair the unsupported-conversion failure. -/
def unit_conversion (env : MathEnv) (ts : String) (value : ℚ)
    (from_unit to_unit : String) : CalculationResult :=
  let label := env.fmt value ++ " " ++ from_unit ++ " to " ++ to_unit
  match conversionRule env value from_unit to_unit with
  | some (result, operation) =>
    { expression := label, result := .num (pyRound6 result),
      operation := operation, timestamp := ts, success := true,
      error_message := "" }
  | none =>
    { expression := label, result := .str "", operation := "unit_conversion",
      timestamp := ts, success := false,
      error_message := "Unsupported conversion: " ++ from_unit ++ " to " ++ to_unit }

/-! ## IEEE binary64 model of the conversion arithmetic

`unit_conversion` above models the numbers as exact rationals.  The
source, however, computes with IEEE-754 binary64 doubles.  The claims
anchored at exactly representable points are unaffected, but the
round-trip bound quantifies over every finite value, so the double
rounding of each intermediate operation matters.  The following
definitions model the source's C→F and F→C success branches with
round-to-nearest-even double rounding applied after every arithmetic
operation, exactly as the Python runtime evaluates
`(value * 9/5) + 32`, `(value - 32) * 5/9` and `round(result, 6)`. -/

/-- `2^e` as a rational, for an integer exponent. -/
def pow2 (e : ℤ) : ℚ :=
  if 0 ≤ e then ((2 ^ e.toNat : ℕ) : ℚ) else 1 / ((2 ^ (-e).toNat : ℕ) : ℚ)

/-- Fuel-indexed base-2 logarithm on naturals (the fuel only bounds the
number of halvings, so `log2Fuel n n` is exact for every `n`). -/
def log2Fuel : ℕ → ℕ → ℕ
  | 0, _ => 0
  | f + 1, n => if 2 ≤ n then log2Fuel f (n / 2) + 1 else 0

/-- `⌊log₂ n⌋` for `n ≥ 1` (0 at 0). -/
def natLog2 (n : ℕ) : ℕ := log2Fuel n n

/-- The binade exponent of a positive rational: the unique `e` with
`2^e ≤ q < 2^(e+1)`, computed from the bit sizes of numerator and
denominator. -/
def ilog2Pos (q : ℚ) : ℤ :=
  let g : ℤ := (natLog2 q.num.toNat : ℤ) - (natLog2 q.den : ℤ)
  if q < pow2 g then g - 1 else g

/-- Round-to-nearest-even of a positive rational at 53 significant
bits: scale into the binade `[2^52, 2^53)`, round the significand half
to even, scale back. -/
def binary64Pos (q : ℚ) : ℚ :=
  let p : ℤ := ilog2Pos q - 52
  (roundHalfEven (q / pow2 p) : ℚ) * pow2 p

/-- IEEE-754 binary64 round-to-nearest-even of an exact rational value,
at full 53-bit precision (normal range; the overflow and subnormal
thresholds are never reached by the values exercised here). -/
def binary64 (q : ℚ) : ℚ :=
  if q = 0 then 0
  else if 0 < q then binary64Pos q
  else -binary64Pos (-q)

/-- The numeric result of the source's C→F branch under double
arithmetic: `round((value * 9/5) + 32, 6)` with every operation rounded
to binary64, and Python's `round(x, 6)` returning the double nearest to
the 6-decimal half-even rounding of the exact value. -/
def cf_double (v : ℚ) : ℚ :=
  binary64 (pyRound6 (binary64 (binary64 (binary64 (v * 9) / 5) + 32)))

/-- The numeric result of the source's F→C branch under double
arithmetic: `round((value - 32) * 5/9, 6)` with every operation rounded
to binary64. -/
def fc_double (v : ℚ) : ℚ :=
  binary64 (pyRound6 (binary64 (binary64 (binary64 (v - 32) * 5) / 9)))

/-! ## Helper lemmas -/

/-- Detector for the two-character operator `**` inside a character
list. -/
def hasSS : List Char → Bool
  | [] => false
  | [_] => false
  | a :: b :: t => (a = '*' && b = '*') || hasSS (b :: t)

lemma clean_expression_data (e : String) :
    (clean_expression e).data =
      ((e.data.filter (fun c => !isPySpace c)).map replChar).flatten := rfl

lemma hasSS_append (a b : List Char) (hb : hasSS b = true) :
    hasSS (a ++ b) = true := by
  induction a with
  | nil => simpa using hb
  | cons c a ih =>
    have hne : a ++ b ≠ [] := by
      intro h0
      rcases List.append_eq_nil.mp h0 with ⟨_, hb0⟩
      rw [hb0] at hb
      simp [hasSS] at hb
    cases ha : a ++ b with
    | nil => exact absurd ha hne
    | cons d t =>
      rw [List.cons_append, ha]
      rw [ha] at ih
      simp only [hasSS, Bool.or_eq_true]
      exact Or.inr ih

lemma hasConsecOps_of_hasSS : ∀ l : List Char, hasSS l = true → hasConsecOps l = true := by
  intro l
  induction l with
  | nil => simp [hasSS]
  | cons c t ih =>
    cases t with
    | nil => simp [hasSS]
    | cons d u =>
      simp only [hasSS, hasConsecOps, Bool.or_eq_true, Bool.and_eq_true,
        decide_eq_true_eq]
      rintro (⟨h1, h2⟩ | h)
      · subst h1; subst h2
        exact Or.inl ⟨by decide, by decide⟩
      · exact Or.inr (ih h)

lemma caret_gives_hasSS : ∀ l : List Char, '^' ∈ l →
    hasSS ((l.filter (fun c => !isPySpace c)).map replChar).flatten = true := by
  intro l hl
  induction l with
  | nil => simp at hl
  | cons c t ih =>
    rcases List.mem_cons.mp hl with h | h
    · rw [← h]
      simp only [List.filter_cons]
      rw [if_pos (by decide : (!isPySpace '^') = true)]
      simp only [List.map_cons, List.flatten_cons]
      rw [show replChar '^' = ['*', '*'] from by decide]
      simp [hasSS]
    · have ihh := ih h
      simp only [List.filter_cons]
      cases hc : (!isPySpace c) with
      | false => simpa using ihh
      | true =>
        simp only [if_pos, List.map_cons, List.flatten_cons]
        exact hasSS_append _ _ ihh

lemma validate_false_of_consec (s : String) (h : hasConsecOps s.data = true) :
    validate_expression s = false := by
  simp [validate_expression, h]

lemma calculate_fail_of_invalid (ts e : String)
    (h : validate_expression (clean_expression e) = false) :
    (calculate ts e).success = false := by
  simp [calculate, h]

/-- Appending to a nonempty string yields a nonempty string. -/
lemma append_ne_empty (a b : String) (ha : a ≠ "") : a ++ b ≠ "" := by
  intro hab
  apply ha
  have hd := congrArg String.data hab
  rw [String.data_append] at hd
  have := List.append_eq_nil.mp hd
  cases a with
  | mk l => simpa using congrArg String.mk this.1

lemma abs_roundHalfEven_sub (q : ℚ) : |(roundHalfEven q : ℚ) - q| ≤ 1 / 2 := by
  unfold roundHalfEven
  split_ifs with h h2
  · rw [abs_sub_comm, h, abs_of_pos (show (0 : ℚ) < 1 / 2 by norm_num)]
  · have e1 : ((⌊q⌋ + 1 : ℤ) : ℚ) - q = 1 - (q - ⌊q⌋) := by push_cast; ring
    rw [e1, h]
    rw [show (1 : ℚ) - 1 / 2 = 1 / 2 by norm_num,
      abs_of_pos (show (0 : ℚ) < 1 / 2 by norm_num)]
  · rw [show (⌊q + 1 / 2⌋ : ℤ) = round q from (round_eq q).symm, abs_sub_comm]
    exact abs_sub_round q

lemma abs_pyRound6_sub (q : ℚ) : |pyRound6 q - q| ≤ 1 / 2000000 := by
  have h := abs_roundHalfEven_sub (q * 1000000)
  have e : pyRound6 q - q
      = ((roundHalfEven (q * 1000000) : ℚ) - q * 1000000) / 1000000 := by
    unfold pyRound6; ring
  rw [e, abs_div, abs_of_pos (show (0 : ℚ) < 1000000 by norm_num)]
  linarith

/-- The Celsius-to-Fahrenheit branch of `unit_conversion`, fully
evaluated. -/
lemma uc_CF (env : MathEnv) (ts : String) (v : ℚ) :
    unit_conversion env ts v "C" "F" =
      { expression := env.fmt v ++ " " ++ "C" ++ " to " ++ "F",
        result := .num (pyRound6 (v * 9 / 5 + 32)),
        operation := "Temperature conversion: " ++ env.fmt v ++ "°C to °F",
        timestamp := ts, success := true, error_message := "" } := by
  with_unfolding_all rfl

/-- The Fahrenheit-to-Celsius branch of `unit_conversion`, fully
evaluated. -/
lemma uc_FC (env : MathEnv) (ts : String) (v : ℚ) :
    unit_conversion env ts v "F" "C" =
      { expression := env.fmt v ++ " " ++ "F" ++ " to " ++ "C",
        result := .num (pyRound6 ((v - 32) * 5 / 9)),
        operation := "Temperature conversion: " ++ env.fmt v ++ "°F to °C",
        timestamp := ts, success := true, error_message := "" } := by
  with_unfolding_all rfl

/-- The pair of unit names matches some registered conversion rule
(the disjunction of the ten branch conditions of `unit_conversion`). -/
def ruleMatches (from_unit to_unit : String) : Bool :=
  (["c", "celsius"].contains from_unit.toLower
      && ["f", "fahrenheit"].contains to_unit.toLower)
  || (["f", "fahrenheit"].contains from_unit.toLower
      && ["c", "celsius"].contains to_unit.toLower)
  || (["c", "celsius"].contains from_unit.toLower
      && ["k", "kelvin"].contains to_unit.toLower)
  || (["k", "kelvin"].contains from_unit.toLower
      && ["c", "celsius"].contains to_unit.toLower)
  || (["m", "meters"].contains from_unit.toLower
      && ["ft", "feet"].contains to_unit.toLower)
  || (["ft", "feet"].contains from_unit.toLower
      && ["m", "meters"].contains to_unit.toLower)
  || (["km", "kilometers"].contains from_unit.toLower
      && ["mi", "miles"].contains to_unit.toLower)
  || (["mi", "miles"].contains from_unit.toLower
      && ["km", "kilometers"].contains to_unit.toLower)
  || (["kg", "kilograms"].contains from_unit.toLower
      && ["lbs", "pounds"].contains to_unit.toLower)
  || (["lbs", "pounds"].contains from_unit.toLower
      && ["kg", "kilograms"].contains to_unit.toLower)

lemma conversionRule_none (env : MathEnv) (v : ℚ) (from_unit to_unit : String)
    (h : ruleMatches from_unit to_unit = false) :
    conversionRule env v from_unit to_unit = none := by
  have h' := h
  simp only [ruleMatches, Bool.or_eq_false_iff] at h'
  obtain ⟨⟨⟨⟨⟨⟨⟨⟨⟨h1, h2⟩, h3⟩, h4⟩, h5⟩, h6⟩, h7⟩, h8⟩, h9⟩, h10⟩ := h'
  simp only [conversionRule, h1, h2, h3, h4, h5, h6, h7, h8, h9, h10,
    Bool.false_eq_true, if_false]

/-! ## Claim theorems -/

/-- C2: after `_clean_expression` every `^` becomes `**`, and any cleaned
expression containing `**` is rejected by the consecutive-operator check
of `_validate_expression`, so `calculate` fails on it: no exponentiation
expression ever evaluates successfully. -/
theorem power_expressions_always_rejected :
    (∀ e : String, '^' ∈ e.data → hasSS (clean_expression e).data = true)
    ∧ ∀ ts e : String, hasSS (clean_expression e).data = true →
        validate_expression (clean_expression e) = false
        ∧ (calculate ts e).success = false := by
  constructor
  · intro e h
    rw [clean_expression_data]
    exact caret_gives_hasSS e.data h
  · intro ts e h
    have hv := validate_false_of_consec (clean_expression e)
      (hasConsecOps_of_hasSS _ h)
    exact ⟨hv, calculate_fail_of_invalid ts e hv⟩

theorem power_expressions_always_rejected_witness :
    hasSS (clean_expression "2^3").data = true
    ∧ (validate_expression (clean_expression "2**3") = false
        ∧ (calculate "2024-01-01 12:00:00" "2**3").success = false) :=
  ⟨power_expressions_always_rejected.1 "2^3" (by decide),
   power_expressions_always_rejected.2 "2024-01-01 12:00:00" "2**3" (by decide)⟩

/-- C1: `calculate "2 + 3 * 4"` does succeed with 14, but
`calculate "2 ** 3 ** 2"` is rejected by `_validate_expression` (its
`**` matches the consecutive-operator pattern) and fails with
"Invalid expression format" instead of succeeding with 512 — even though
the underlying evaluator, had it been reached, computes the
right-associative 512.  This records the code-bug divergence of C1. -/
theorem calculate_power_validation_bug :
    ∀ ts : String,
      (calculate ts "2 + 3 * 4").success = true
      ∧ (calculate ts "2 + 3 * 4").result = .num 14
      ∧ (calculate ts "2 ** 3 ** 2").success = false
      ∧ (calculate ts "2 ** 3 ** 2").error_message = "Invalid expression format"
      ∧ evaluate_expression "2**3**2" = some 512 :=
  fun _ => ⟨by with_unfolding_all rfl, by with_unfolding_all rfl,
    by with_unfolding_all rfl, by with_unfolding_all rfl,
    by with_unfolding_all rfl⟩

/-- C3: `calculate "10 / 0"` and `calculate "10 % 0"` fail with the
division-by-zero message, but `calculate "10 // 0"` is rejected earlier
by the validator (its `//` matches the consecutive-operator pattern) and
fails with "Invalid expression format", not with the division-by-zero
error the spec requires; nonzero divisors succeed. -/
theorem division_by_zero_messages_bug :
    ∀ ts : String,
      calculate ts "10 / 0" =
        { expression := "10 / 0", result := .str "", operation := "calculation",
          timestamp := ts, success := false,
          error_message := "Division by zero or invalid operation" }
      ∧ calculate ts "10 % 0" =
        { expression := "10 % 0", result := .str "", operation := "calculation",
          timestamp := ts, success := false,
          error_message := "Division by zero or invalid operation" }
      ∧ calculate ts "10 // 0" =
        { expression := "10 // 0", result := .str "", operation := "validation",
          timestamp := ts, success := false,
          error_message := "Invalid expression format" }
      ∧ (calculate ts "10 / 2").success = true
      ∧ (calculate ts "10 / 2").result = .num 5
      ∧ (calculate ts "10 % 3").success = true
      ∧ (calculate ts "10 % 3").result = .num 1 :=
  fun _ => ⟨by with_unfolding_all rfl, by with_unfolding_all rfl,
    by with_unfolding_all rfl, by with_unfolding_all rfl,
    by with_unfolding_all rfl, by with_unfolding_all rfl,
    by with_unfolding_all rfl⟩

/-- C10 counterexample: two calls of `calculate` on the same expression
with different clock readings (the source reads `datetime.now()`, not an
injectable clock) return different `CalculationResult`s — they differ in
the `timestamp` field. -/
theorem calculate_timestamp_counterexample :
    calculate "2024-01-01 00:00:00" "1 + 1" ≠
      calculate "2024-01-01 00:00:01" "1 + 1" := by
  intro h
  have ht := congrArg CalculationResult.timestamp h
  rw [show (calculate "2024-01-01 00:00:00" "1 + 1").timestamp
        = "2024-01-01 00:00:00" from by with_unfolding_all rfl,
      show (calculate "2024-01-01 00:00:01" "1 + 1").timestamp
        = "2024-01-01 00:00:01" from by with_unfolding_all rfl] at ht
  exact absurd ht (by decide)

/-- C10 (amended): re-evaluating the same expression is deterministic in
every field except `timestamp`: the result depends only on the
expression string and the clock reading, with no hidden state. -/
theorem calculate_deterministic_modulo_timestamp :
    ∀ ts1 ts2 e : String,
      (calculate ts1 e).expression = (calculate ts2 e).expression
      ∧ (calculate ts1 e).result = (calculate ts2 e).result
      ∧ (calculate ts1 e).operation = (calculate ts2 e).operation
      ∧ (calculate ts1 e).success = (calculate ts2 e).success
      ∧ (calculate ts1 e).error_message = (calculate ts2 e).error_message := by
  intro ts1 ts2 e
  cases hv : validate_expression (clean_expression e) with
  | false => simp [calculate, hv]
  | true =>
    cases he : evaluate_expression (clean_expression e) with
    | none => simp [calculate, hv, he]
    | some r => simp [calculate, hv, he]

/-- C4: `scientific_function "factorial"` returns 120 at 5, and its
domain guard — checked before the factorial routine is reached — turns
every negative or non-integral argument into the DomainError result,
independently of the environment. -/
theorem factorial_function_spec :
    (∀ (env : MathEnv) (ts : String),
        (scientific_function env ts "factorial" 5).success = true
        ∧ (scientific_function env ts "factorial" 5).result = .num 120)
    ∧ ∀ (env : MathEnv) (ts : String) (v : ℚ),
        v < 0 ∨ v ≠ (ratTrunc v : ℚ) →
          scientific_function env ts "factorial" v =
            { expression := "factorial" ++ "(" ++ env.fmt v ++ ")",
              result := .str "", operation := "scientific_function",
              timestamp := ts, success := false,
              error_message := "Factorial is only defined for non-negative integers" } := by
  constructor
  · intro env ts
    exact ⟨by with_unfolding_all rfl, by with_unfolding_all rfl⟩
  · intro env ts v h
    simp only [scientific_function]
    rw [if_neg (by decide : ¬((!functionNames.contains "factorial") = true)),
      if_neg (fun hc => absurd hc.1 (by decide : ¬("factorial" = "sqrt"))),
      if_neg (fun hc => absurd hc.1 (by decide : ¬("factorial" = "log"))),
      if_pos ⟨by trivial, h⟩]

theorem factorial_function_spec_witness :
    ((-1 : ℚ) < 0 ∨ (-1 : ℚ) ≠ (ratTrunc (-1) : ℚ))
    ∧ scientific_function defaultEnv "2024-01-01 12:00:00" "factorial" (-1) =
      { expression := "factorial" ++ "(" ++ defaultEnv.fmt (-1) ++ ")",
        result := .str "", operation := "scientific_function",
        timestamp := "2024-01-01 12:00:00", success := false,
        error_message := "Factorial is only defined for non-negative integers" } :=
  ⟨Or.inl (by decide),
   factorial_function_spec.2 defaultEnv "2024-01-01 12:00:00" (-1) (Or.inl (by decide))⟩

/-- C5: the `sqrt` guard fails every negative argument with the
DomainError message before `math.sqrt` runs, `sqrt 16` succeeds with
4.0, and any name outside the function table fails with an
UnknownFunction message naming that identifier. -/
theorem sqrt_and_unknown_function_spec :
    (∀ (env : MathEnv) (ts : String) (v : ℚ), v < 0 →
        scientific_function env ts "sqrt" v =
          { expression := "sqrt" ++ "(" ++ env.fmt v ++ ")",
            result := .str "", operation := "scientific_function",
            timestamp := ts, success := false,
            error_message := "Cannot calculate square root of negative number" })
    ∧ (∀ (env : MathEnv) (ts : String),
        (scientific_function env ts "sqrt" 16).success = true
        ∧ (scientific_function env ts "sqrt" 16).result = .num 4)
    ∧ ∀ (env : MathEnv) (ts name : String) (v : ℚ),
        functionNames.contains name = false →
          scientific_function env ts name v =
            { expression := name ++ "(" ++ env.fmt v ++ ")",
              result := .str "", operation := "scientific_function",
              timestamp := ts, success := false,
              error_message := "Unknown function: " ++ name } := by
  refine ⟨?_, ?_, ?_⟩
  · intro env ts v h
    simp only [scientific_function]
    rw [if_neg (by decide : ¬((!functionNames.contains "sqrt") = true)),
      if_pos ⟨by trivial, h⟩]
  · intro env ts
    exact ⟨by with_unfolding_all rfl, by with_unfolding_all rfl⟩
  · intro env ts name v h
    simp only [scientific_function]
    rw [if_pos (show (!functionNames.contains name) = true by rw [h]; decide)]

theorem sqrt_and_unknown_function_spec_witness :
    scientific_function defaultEnv "2024-01-01 12:00:01" "sqrt" (-4) =
      { expression := "sqrt" ++ "(" ++ defaultEnv.fmt (-4) ++ ")",
        result := .str "", operation := "scientific_function",
        timestamp := "2024-01-01 12:00:01", success := false,
        error_message := "Cannot calculate square root of negative number" }
    ∧ scientific_function defaultEnv "2024-01-01 12:00:01" "bogus" 1 =
      { expression := "bogus" ++ "(" ++ defaultEnv.fmt 1 ++ ")",
        result := .str "", operation := "scientific_function",
        timestamp := "2024-01-01 12:00:01", success := false,
        error_message := "Unknown function: " ++ "bogus" } :=
  ⟨sqrt_and_unknown_function_spec.1 defaultEnv "2024-01-01 12:00:01" (-4) (by decide),
   sqrt_and_unknown_function_spec.2.2 defaultEnv "2024-01-01 12:00:01" "bogus" 1
     (by decide)⟩

/-- C6: the Celsius-to-Fahrenheit conversion computes `v*9/5+32`,
returns it rounded to six decimal places, and in particular maps 0 to
32.0 and 100 to 212.0. -/
theorem celsius_to_fahrenheit_formula :
    (∀ (env : MathEnv) (ts : String) (v : ℚ),
        (unit_conversion env ts v "C" "F").success = true
        ∧ (unit_conversion env ts v "C" "F").result
            = .num (pyRound6 (v * 9 / 5 + 32)))
    ∧ ∀ (env : MathEnv) (ts : String),
        (unit_conversion env ts 0 "C" "F").result = .num 32
        ∧ (unit_conversion env ts 100 "C" "F").result = .num 212 := by
  constructor
  · intro env ts v
    rw [uc_CF]
    exact ⟨rfl, rfl⟩
  · intro env ts
    exact ⟨by with_unfolding_all rfl, by with_unfolding_all rfl⟩

set_option maxRecDepth 100000 in
set_option maxHeartbeats 1000000 in
/-- C7 counterexample: the source computes the conversions in IEEE
binary64 doubles, and for the finite double
`x = 5678344239749962/512 ≈ 1.109e13` the round trip
`fc_double (cf_double x)` misses `x` by exactly `1/512 ≈ 1.95e-3`,
violating the claimed 1e-6 bound; so "within 1e-6 for all finite x" is
false of the program. -/
theorem temperature_round_trip_ieee_counterexample :
    fc_double (cf_double (5678344239749962 / 512))
        - 5678344239749962 / 512 = 1 / 512
    ∧ (1 : ℚ) / 1000000
        < |fc_double (cf_double (5678344239749962 / 512))
            - 5678344239749962 / 512| := by
  have h : fc_double (cf_double ((5678344239749962 : ℚ) / 512))
      - 5678344239749962 / 512 = 1 / 512 := by with_unfolding_all rfl
  refine ⟨h, ?_⟩
  rw [h, abs_of_pos (show (0 : ℚ) < 1 / 512 by norm_num)]
  norm_num

/-- C7 (amended): with the numbers computed in exact arithmetic, the
Celsius-to-Fahrenheit-and-back round trip — each step rounded to six
decimals — always succeeds and lands within 1e-6 of the original value
(the two decimal roundings alone contribute at most 7/9 of 1e-6); under
the source's IEEE double arithmetic the 1e-6 bound additionally
requires the intermediate double roundings to be negligible, which
fails at large finite magnitudes (see the counterexample). -/
theorem temperature_round_trip :
    ∀ (env1 env2 : MathEnv) (ts1 ts2 : String) (x : ℚ),
      (unit_conversion env1 ts1 x "C" "F").success = true
      ∧ (unit_conversion env2 ts2
          ((unit_conversion env1 ts1 x "C" "F").result.toQ) "F" "C").success = true
      ∧ |(unit_conversion env2 ts2
          ((unit_conversion env1 ts1 x "C" "F").result.toQ) "F" "C").result.toQ - x|
            ≤ 1 / 1000000 := by
  intro env1 env2 ts1 ts2 x
  rw [uc_CF env1 ts1 x]
  simp only [ResVal.toQ]
  rw [uc_FC env2 ts2]
  refine ⟨by trivial, by trivial, ?_⟩
  simp only [ResVal.toQ]
  have h1 := abs_pyRound6_sub (x * 9 / 5 + 32)
  have h2 := abs_pyRound6_sub ((pyRound6 (x * 9 / 5 + 32) - 32) * 5 / 9)
  rw [abs_le] at h1 h2 ⊢
  constructor <;> linarith [h1.1, h1.2, h2.1, h2.2]

/-- C8: a unit pair matching none of the ten registered rules — in
particular Fahrenheit to Kelvin, which has no direct rule and is not
chained through Celsius — fails with an UnsupportedConversion message
naming both units. -/
theorem unsupported_conversion_failure :
    (∀ (env : MathEnv) (ts : String) (v : ℚ) (from_unit to_unit : String),
        ruleMatches from_unit to_unit = false →
          unit_conversion env ts v from_unit to_unit =
            { expression := env.fmt v ++ " " ++ from_unit ++ " to " ++ to_unit,
              result := .str "", operation := "unit_conversion",
              timestamp := ts, success := false,
              error_message :=
                "Unsupported conversion: " ++ from_unit ++ " to " ++ to_unit })
    ∧ ∀ (env : MathEnv) (ts : String),
        ruleMatches "F" "K" = false
        ∧ (unit_conversion env ts 5 "F" "K").success = false
        ∧ (unit_conversion env ts 5 "F" "K").error_message
            = "Unsupported conversion: F to K" := by
  have main : ∀ (env : MathEnv) (ts : String) (v : ℚ) (from_unit to_unit : String),
      ruleMatches from_unit to_unit = false →
        unit_conversion env ts v from_unit to_unit =
          { expression := env.fmt v ++ " " ++ from_unit ++ " to " ++ to_unit,
            result := .str "", operation := "unit_conversion",
            timestamp := ts, success := false,
            error_message :=
              "Unsupported conversion: " ++ from_unit ++ " to " ++ to_unit } := by
    intro env ts v from_unit to_unit h
    simp [unit_conversion, conversionRule_none env v from_unit to_unit h]
  refine ⟨main, fun env ts => ⟨by with_unfolding_all rfl, ?_, ?_⟩⟩
  · rw [main env ts 5 "F" "K" (by with_unfolding_all rfl)]
  · rw [main env ts 5 "F" "K" (by with_unfolding_all rfl)]
    with_unfolding_all rfl

theorem unsupported_conversion_failure_witness :
    ruleMatches "X" "Y" = false
    ∧ unit_conversion defaultEnv "2024-01-01 12:00:02" 7 "X" "Y" =
      { expression := defaultEnv.fmt 7 ++ " " ++ "X" ++ " to " ++ "Y",
        result := .str "", operation := "unit_conversion",
        timestamp := "2024-01-01 12:00:02", success := false,
        error_message := "Unsupported conversion: " ++ "X" ++ " to " ++ "Y" } :=
  ⟨by with_unfolding_all rfl,
   unsupported_conversion_failure.1 defaultEnv "2024-01-01 12:00:02" 7 "X" "Y"
     (by with_unfolding_all rfl)⟩

/-- C9: across all three public operations, a failed result always has
the empty-string `result` and a non-empty `error_message`. -/
theorem failure_result_invariant :
    (∀ ts e : String, (calculate ts e).success = false →
        (calculate ts e).result = .str ""
        ∧ (calculate ts e).error_message ≠ "")
    ∧ (∀ (env : MathEnv) (ts name : String) (v : ℚ),
        (scientific_function env ts name v).success = false →
          (scientific_function env ts name v).result = .str ""
          ∧ (scientific_function env ts name v).error_message ≠ "")
    ∧ ∀ (env : MathEnv) (ts : String) (v : ℚ) (from_unit to_unit : String),
        (unit_conversion env ts v from_unit to_unit).success = false →
          (unit_conversion env ts v from_unit to_unit).result = .str ""
          ∧ (unit_conversion env ts v from_unit to_unit).error_message ≠ "" := by
  refine ⟨?_, ?_, ?_⟩
  · intro ts e h
    cases hv : validate_expression (clean_expression e) with
    | false =>
      have hc : calculate ts e =
          { expression := e, result := .str "", operation := "validation",
            timestamp := ts, success := false,
            error_message := "Invalid expression format" } := by
        simp [calculate, hv]
      rw [hc]
      exact ⟨rfl, show "Invalid expression format" ≠ "" by decide⟩
    | true =>
      cases he : evaluate_expression (clean_expression e) with
      | none =>
        have hc : calculate ts e =
            { expression := e, result := .str "", operation := "calculation",
              timestamp := ts, success := false,
              error_message := "Division by zero or invalid operation" } := by
          simp [calculate, hv, he]
        rw [hc]
        exact ⟨rfl, show "Division by zero or invalid operation" ≠ "" by decide⟩
      | some r =>
        simp [calculate, hv, he] at h
  · intro env ts name v h
    simp only [scientific_function] at h ⊢
    split_ifs at h ⊢ with h1 h2 h3 h4
    · exact ⟨rfl, append_ne_empty _ _ (by decide)⟩
    · exact ⟨rfl, show "Cannot calculate square root of negative number" ≠ "" by decide⟩
    · exact ⟨rfl, show "Cannot calculate logarithm of non-positive number" ≠ "" by decide⟩
    · exact ⟨rfl, show "Factorial is only defined for non-negative integers" ≠ "" by decide⟩
  · intro env ts v from_unit to_unit h
    cases hr : conversionRule env v from_unit to_unit with
    | none =>
      have hc : unit_conversion env ts v from_unit to_unit =
          { expression := env.fmt v ++ " " ++ from_unit ++ " to " ++ to_unit,
            result := .str "", operation := "unit_conversion",
            timestamp := ts, success := false,
            error_message :=
              "Unsupported conversion: " ++ from_unit ++ " to " ++ to_unit } := by
        simp [unit_conversion, hr]
      rw [hc]
      exact ⟨rfl, append_ne_empty _ _
        (append_ne_empty _ _ (append_ne_empty _ _ (by decide)))⟩
    | some p =>
      obtain ⟨r, op⟩ := p
      simp [unit_conversion, hr] at h

theorem failure_result_invariant_witness :
    ((calculate "t" "(").result = .str ""
      ∧ (calculate "t" "(").error_message ≠ "")
    ∧ ((scientific_function defaultEnv "t" "bogus" 1).result = .str ""
      ∧ (scientific_function defaultEnv "t" "bogus" 1).error_message ≠ "")
    ∧ ((unit_conversion defaultEnv "t" 5 "F" "K").result = .str ""
      ∧ (unit_conversion defaultEnv "t" 5 "F" "K").error_message ≠ "") :=
  ⟨failure_result_invariant.1 "t" "(" (by decide),
   failure_result_invariant.2.1 defaultEnv "t" "bogus" 1 (by decide),
   failure_result_invariant.2.2 defaultEnv "t" 5 "F" "K" (by with_unfolding_all rfl)⟩

end MCPCalc
